import Mathlib

/-!
Verification of the asynchronous-completion and message-delivery core of an
MQTT client library: the topic-filter matcher, the bounded thread-safe FIFO
queue, the one-shot completion token, and the tagged event union.

The matcher, queue and token implementations are not present in the source
tree (only their unit tests and callers are), so those operations are
modelled from the specification text and checked against the behavior the
unit tests demand.  The `event` tagged union is embedded directly from
`include/mqtt/event.h`.
-/

namespace Mqtt

/-! ## Topic splitting and filter matching -/

/-- Modelled from the spec: split a character list on the `/` separator,
preserving empty segments (so `"/foo"` splits to `["", "foo"]`).
The `topic::split` implementation is absent from the tree; only its unit
test (`test_topic.cpp`, "split") exercises it. -/
def splitChars : List Char → List (List Char)
  | [] => [[]]
  | c :: cs =>
    if c = '/' then [] :: splitChars cs
    else
      match splitChars cs with
      | s :: rest => (c :: s) :: rest
      | [] => [[c]]

namespace topic

/-- Modelled from the spec: split a topic or filter string on `/` into its
ordered list of segments, empty segments preserved. -/
def split (s : String) : List String :=
  (splitChars s.data).map fun cs => String.mk cs

end topic

/-- Whether a segment begins with the reserved `$` character. -/
def firstIsDollar (s : String) : Bool :=
  match s.data with
  | [] => false
  | c :: _ => c == '$'

namespace topic_filter

/-- Modelled from the spec (§4.3, steps 2–3): segment-wise matching of a
filter segment list against a topic segment list, walked left to right.
`#` matches this and all remaining topic levels; if the topic is exhausted
the match succeeds only when the remaining filter is exactly `#`; `+`
matches any single segment; a literal must equal the topic segment exactly.
(The reserved-`$` rule is applied at the top level, on the first segments.) -/
def seg_match : List String → List String → Bool
  | [], [] => true
  | f :: fs, [] => f == "#" && fs == []
  | [], _ :: _ => false
  | f :: fs, t :: ts =>
    if f == "#" then true
    else (f == "+" || f == t) && seg_match fs ts

/-- Modelled from the spec (§4.3): `topic_filter::matches`.  The
implementation is absent from the tree; only its unit tests
(`test_topic.cpp`, "topic matches") exercise it.  Splits both strings on
`/`, rejects a leading wildcard (`#` or `+`) against a first topic segment
that begins with `$` (the reserved namespace), and otherwise matches
segment-wise. -/
def matches' (filt top : String) : Bool :=
  let fs := topic.split filt
  let ts := topic.split top
  match fs, ts with
  | f :: _, t :: _ =>
    if (f == "#" || f == "+") && firstIsDollar t then false
    else seg_match fs ts
  | _, _ => seg_match fs ts

/-- From the spec (§7): the error raised when a topic filter violates the
`#`-must-be-final-segment rule, detected at filter-construction time. -/
inductive filter_error
  | malformed_filter
deriving DecidableEq

/-- Whether `#` occurs in no segment other than the last. -/
def no_interior_hash : List String → Bool
  | [] => true
  | [_] => true
  | s :: rest => (s != "#") && no_interior_hash rest

/-- Modelled from the spec (§3, §7): topic-filter construction.  The
constructor implementation is absent from the tree; per the spec it splits
the filter string into segments and validates, at construction time rather
than at match time, that `#` appears only as the final segment, failing
with `malformed_filter` otherwise. -/
def make (filt : String) : Except filter_error (List String) :=
  let segs := topic.split filt
  if no_interior_hash segs then .ok segs else .error .malformed_filter

end topic_filter

/-! ## The completion token -/

/-- Modelled from the spec (§3, §4.2): the result slot of a completion
token, holding one of pending, succeeded (with the response payload) or
failed (with the error detail).  No token implementation is present in the
tree. -/
inductive token_state (α ε : Type)
  | pending
  | succeeded (p : α)
  | failed (e : ε)
deriving DecidableEq

namespace token_state

variable {α ε : Type}

/-- Modelled from the spec (§4.2): `on_success` — transitions
pending → succeeded exactly once; a later completion attempt is a no-op,
never a silent overwrite. -/
def on_success (t : token_state α ε) (p : α) : token_state α ε :=
  match t with
  | .pending => .succeeded p
  | s => s

/-- Modelled from the spec (§4.2): `on_failure` — transitions
pending → failed exactly once; a later completion attempt is a no-op. -/
def on_failure (t : token_state α ε) (e : ε) : token_state α ε :=
  match t with
  | .pending => .failed e
  | s => s

/-- Modelled from the spec (§4.2): `wait` — blocks until the token is
resolved (`none` stands for a wait that blocks forever in the sequential
model), then returns the success payload or fails with the carried error
detail.  The pair is (observed outcome, result slot after the call); the
read never mutates the slot. -/
def wait (t : token_state α ε) : Option (Except ε α) × token_state α ε :=
  match t with
  | .pending => (none, .pending)
  | .succeeded p => (some (.ok p), .succeeded p)
  | .failed e => (some (.error e), .failed e)

end token_state

/-! ## The event tagged union (embedded from include/mqtt/event.h) -/

/-- From `event.h`: event for when the client is connected/reconnected. -/
structure connected_event where
  cause : String
deriving DecidableEq

/-- From `event.h`: event for when the connection is lost. -/
structure connection_lost_event where
  cause : String
deriving DecidableEq

/-- From `event.h`: event for a DISCONNECT packet from the server.  `P`
stands in for the `properties` payload; the reason code is numeric. -/
structure disconnected_event (P : Type) where
  props : P
  reasonCode : Nat
deriving DecidableEq

/-- From `event.h`: `std::bad_variant_access`, thrown by `std::get` when
the variant does not hold the requested alternative. -/
inductive bad_variant_access
  | mk
deriving DecidableEq

/-- From `event.h`: the `event` class, whose state is
`std::variant<const_message_ptr, connected_event, connection_lost_event,
disconnected_event>`.  `M` stands in for the message type; the
`const_message_ptr` shared pointer is `Option M`, with `none` the null
pointer. -/
inductive event (M P : Type)
  | message (msg : Option M)
  | connected (e : connected_event)
  | connection_lost (e : connection_lost_event)
  | disconnected (e : disconnected_event P)
deriving DecidableEq

namespace event

variable {M P : Type}

/-- From `event.h`: `event() {}` — the default constructor
default-constructs the variant, which then holds its first alternative
(`const_message_ptr`) with a default-constructed, i.e. null, message pointer. -/
def dflt (M P : Type) : event M P := .message none

/-- From `event.h`: `is_message` — `std::holds_alternative` on the message
alternative. -/
def is_message : event M P → Bool
  | .message _ => true
  | _ => false

/-- From `event.h`: `is_disconnected` — `std::holds_alternative` on the
disconnected alternative. -/
def is_disconnected : event M P → Bool
  | .disconnected _ => true
  | _ => false

/-- From `event.h`: `get_message` — `std::get` on the message alternative;
throws `std::bad_variant_access` if this is not a message event. -/
def get_message : event M P → Except bad_variant_access (Option M)
  | .message m => .ok m
  | _ => .error .mk

/-- From `event.h`: `get_disconnected` — `std::get` on the disconnected
alternative; throws `std::bad_variant_access` otherwise. -/
def get_disconnected :
    event M P → Except bad_variant_access (disconnected_event P)
  | .disconnected d => .ok d
  | _ => .error .mk

/-- From `event.h`: `get_message_if` — `std::get_if` returns a pointer to
the stored message pointer when this is a message event (`some` stands for
a non-null pointer), and `nullptr` (`none`) otherwise. -/
def get_message_if : event M P → Option (Option M)
  | .message m => some m
  | _ => none

/-- From `event.h`: `get_disconnected_if` — `std::get_if` on the
disconnected alternative. -/
def get_disconnected_if : event M P → Option (disconnected_event P)
  | .disconnected d => some d
  | _ => none

end event

/-! ## The bounded thread-safe FIFO queue -/

/-- Modelled from the spec (§3, §4.1): the state of a `thread_queue` — an
ordered FIFO sequence, a capacity bound (`0` = unbounded) and an
irreversible closed flag.  The `thread_queue` implementation is absent from
the tree; only its unit tests (`test_thread_queue.cpp`) exercise it. -/
structure thread_queue (α : Type) where
  que : List α
  cap : Nat
  closed : Bool
deriving DecidableEq

namespace thread_queue

variable {α : Type}

/-- Lock-protected point-in-time size query. -/
def size (q : thread_queue α) : Nat := q.que.length

/-- Whether a bounded queue is at capacity (an unbounded queue never is). -/
def full (q : thread_queue α) : Bool :=
  q.cap != 0 && decide (q.cap ≤ q.que.length)

/-- Outcome of the blocking `put`, observed at a point where the call does
not have to wait: the item is enqueued, or the call fails with
`queue_closed`, or (bounded queue at capacity, still open) the calling
thread blocks. -/
inductive PutOutcome (α : Type)
  | accepted (q : thread_queue α)
  | queue_closed
  | blocked
deriving DecidableEq

/-- Outcome of the blocking `get`: an item is dequeued, or the call fails
with `queue_closed` (closed AND empty), or (empty, still open) the calling
thread blocks. -/
inductive GetOutcome (α : Type)
  | item (x : α) (q : thread_queue α)
  | queue_closed
  | blocked
deriving DecidableEq

/-- Modelled from the spec (§4.1): blocking `put`.  On a closed queue it
fails with `queue_closed` instead of enqueuing; on a full open queue it
blocks; otherwise it appends the item at the tail. -/
def put (q : thread_queue α) (x : α) : PutOutcome α :=
  if q.closed then .queue_closed
  else if full q then .blocked
  else .accepted { q with que := q.que ++ [x] }

/-- Modelled from the spec (§4.1): `try_put`.  Returns `false` (leaving the
queue unchanged) when the queue is closed or at capacity, never raising;
otherwise enqueues and returns `true`. -/
def try_put (q : thread_queue α) (x : α) : Bool × thread_queue α :=
  if q.closed || full q then (false, q)
  else (true, { q with que := q.que ++ [x] })

/-- Modelled from the spec (§4.1): `try_put_for`.  In the sequential
embedding no concurrent transition can free capacity during the bounded
wait, so the outcome coincides with `try_put`; on a closed queue the wait
ends immediately with `false`. -/
def try_put_for (q : thread_queue α) (x : α) (_dur : Nat) :
    Bool × thread_queue α :=
  try_put q x

/-- Modelled from the spec (§4.1): `try_put_until`, the deadline variant of
`try_put_for`. -/
def try_put_until (q : thread_queue α) (x : α) (_deadline : Nat) :
    Bool × thread_queue α :=
  try_put q x

/-- Modelled from the spec (§4.1): blocking `get`.  Dequeues the head item
when one is buffered (even on a closed queue — close does not discard);
fails with `queue_closed` when closed AND empty; blocks when empty but
open. -/
def get (q : thread_queue α) : GetOutcome α :=
  match q.que with
  | x :: xs => .item x { q with que := xs }
  | [] => if q.closed then .queue_closed else .blocked

/-- Modelled from the spec (§4.1): `try_get`.  The caller's slot holds its
previous value; on an empty queue the call returns `false` and the slot and
queue are returned unchanged, otherwise the head item is moved into the
slot. -/
def try_get (q : thread_queue α) (slot : α) : Bool × α × thread_queue α :=
  match q.que with
  | x :: xs => (true, x, { q with que := xs })
  | [] => (false, slot, q)

/-- Modelled from the spec (§4.1): `try_get_for`.  In the sequential
embedding no concurrent producer can enqueue during the bounded wait, so
the outcome coincides with `try_get`. -/
def try_get_for (q : thread_queue α) (slot : α) (_dur : Nat) :
    Bool × α × thread_queue α :=
  try_get q slot

/-- Modelled from the spec (§4.1): `try_get_until`, the deadline variant of
`try_get_for`. -/
def try_get_until (q : thread_queue α) (slot : α) (_deadline : Nat) :
    Bool × α × thread_queue α :=
  try_get q slot

/-- Modelled from the spec (§4.1): `close` — idempotent, flips the closed
flag, keeps the buffered contents. -/
def close (q : thread_queue α) : thread_queue α :=
  { q with closed := true }

/-- A sequence of blocking `put`s from a single thread with no intervening
`get`; `none` if any of them fails or blocks. -/
def put_all (q : thread_queue α) : List α → Option (thread_queue α)
  | [] => some q
  | x :: xs =>
    match put q x with
    | .accepted q' => put_all q' xs
    | _ => none

/-- Performs `n` consecutive blocking `get`s, collecting the items in the order they
are returned; `none` if any of them fails or blocks. -/
def get_drain (q : thread_queue α) : Nat → Option (List α × thread_queue α)
  | 0 => some ([], q)
  | n + 1 =>
    match get q with
    | .item x q' =>
      match get_drain q' n with
      | some (xs, q'') => some (x :: xs, q'')
      | none => none
    | _ => none

end thread_queue

end Mqtt

namespace Mqtt

/-! ## Claims about the topic-filter matcher -/

/-- C1: the topic-filter matcher satisfies the spec's truth table exactly:
`matches("foo/+/baz","foo/bar/baz")=true`; `matches("foo/+","foo/bar/baz")=false`;
`matches("#","foo/bar/baz")=true`; `matches("#","$SYS/bar")=false`;
`matches("$SYS/#","$SYS/bar")=true`; `matches("foo/#","foo/$bar")=true`;
`matches("+/bar","$SYS/bar")=false`; `matches("test/6/#","test/3")=false`. -/
theorem claim_c1 :
    topic_filter.matches' "foo/+/baz" "foo/bar/baz" = true ∧
    topic_filter.matches' "foo/+" "foo/bar/baz" = false ∧
    topic_filter.matches' "#" "foo/bar/baz" = true ∧
    topic_filter.matches' "#" "$SYS/bar" = false ∧
    topic_filter.matches' "$SYS/#" "$SYS/bar" = true ∧
    topic_filter.matches' "foo/#" "foo/$bar" = true ∧
    topic_filter.matches' "+/bar" "$SYS/bar" = false ∧
    topic_filter.matches' "test/6/#" "test/3" = false := by
  decide

/-- C2, counterexample: the claim says a `+` filter segment must never match
a topic segment beginning with `$` (at any position).  But the unit test
`test_topic.cpp:262` requires `matches("foo/+/baz","foo/$bar/baz") = true`,
where the `+` at index 1 matches the `$`-prefixed segment `$bar`: the
exclusion holds only at the first segment position. -/
theorem claim_c2_cex :
    topic_filter.matches' "foo/+/baz" "foo/$bar/baz" = true := by
  decide

/-- C2, amended: the reserved-namespace exclusion applies only at the first
segment position.  A filter whose first segment is `+` never matches a
topic whose first segment begins with `$`; at every position handled by the
segment-wise walk past that initial guard, `+` matches any single topic
segment unconditionally (including `$`-prefixed and empty ones). -/
theorem claim_c2 (filt top t : String) (fs ts : List String)
    (hf : topic.split filt = "+" :: fs) (ht : topic.split top = t :: ts)
    (hd : firstIsDollar t = true) :
    topic_filter.matches' filt top = false ∧
    ∀ (gs us : List String) (u : String),
      topic_filter.seg_match ("+" :: gs) (u :: us) = topic_filter.seg_match gs us := by
  refine ⟨?_, ?_⟩
  · simp only [topic_filter.matches', hf, ht]
    simp [hd]
  · intro gs us u
    rfl

/-- C2, witness: the amended theorem applied at filter `+/bar` and topic
`$SYS/bar`. -/
theorem claim_c2_witness : topic_filter.matches' "+/bar" "$SYS/bar" = false :=
  (claim_c2 "+/bar" "$SYS/bar" "$SYS" ["bar"] ["bar"] (by decide) (by decide)
    (by decide)).1

/-! ## Claims about the thread queue -/

/-- Draining a queue of its full contents by blocking `get`s returns
exactly the buffered list, in order, whatever the capacity and closed
flag. -/
theorem get_drain_full (l : List α) (cap : Nat) (b : Bool) :
    thread_queue.get_drain (⟨l, cap, b⟩ : thread_queue α) l.length =
      some (l, ⟨[], cap, b⟩) := by
  induction l with
  | nil => rfl
  | cons x xs ih =>
    simp [thread_queue.get_drain, thread_queue.get, ih]

/-- On an open unbounded queue every blocking `put` succeeds, appending at
the tail. -/
theorem put_all_unbounded (l xs : List α) :
    thread_queue.put_all (⟨l, 0, false⟩ : thread_queue α) xs =
      some ⟨l ++ xs, 0, false⟩ := by
  induction xs generalizing l with
  | nil => simp [thread_queue.put_all]
  | cons x xs ih =>
    simp [thread_queue.put_all, thread_queue.put, thread_queue.full, ih]

/-- C3: FIFO — for every open unbounded queue that is empty when a single
thread performs `put(x1), …, put(xn)` with no intervening `get`, every put
is accepted and the next `n` blocking `get` calls return `x1, …, xn` in
that order, leaving the queue empty. -/
theorem claim_c3 (α : Type) (q : thread_queue α) (xs : List α)
    (hopen : q.closed = false) (hunb : q.cap = 0) (hempty : q.que = []) :
    thread_queue.put_all q xs = some ⟨xs, 0, false⟩ ∧
    thread_queue.get_drain (⟨xs, 0, false⟩ : thread_queue α) xs.length =
      some (xs, ⟨[], 0, false⟩) := by
  obtain ⟨que, cap, cl⟩ := q
  subst hopen; subst hunb; subst hempty
  exact ⟨by simpa using put_all_unbounded [] xs, get_drain_full xs 0 false⟩

/-- C3, witness: the FIFO theorem at the empty unbounded queue of naturals
and the put sequence `[1, 2, 3]`. -/
theorem claim_c3_witness :
    thread_queue.put_all (⟨[], 0, false⟩ : thread_queue Nat) [1, 2, 3] =
      some ⟨[1, 2, 3], 0, false⟩ ∧
    thread_queue.get_drain (⟨[1, 2, 3], 0, false⟩ : thread_queue Nat) 3 =
      some ([1, 2, 3], ⟨[], 0, false⟩) :=
  claim_c3 Nat ⟨[], 0, false⟩ [1, 2, 3] rfl rfl rfl

/-- C4: close drains then blocks — closing a queue holding `n` items still
allows exactly `n` successful `get`s returning the buffered items in
order; the `get` after that fails with `queue_closed`; and a `put` issued
after close fails with `queue_closed` regardless of remaining capacity. -/
theorem claim_c4 (α : Type) (q : thread_queue α) (x : α) :
    thread_queue.get_drain (thread_queue.close q) q.que.length =
      some (q.que, ⟨[], q.cap, true⟩) ∧
    thread_queue.get (⟨[], q.cap, true⟩ : thread_queue α) = .queue_closed ∧
    thread_queue.put (thread_queue.close q) x = .queue_closed := by
  refine ⟨?_, rfl, rfl⟩
  obtain ⟨que, cap, cl⟩ := q
  exact get_drain_full que cap true

/-- C5: on a closed queue, `try_put`, `try_put_for` and `try_put_until`
all return `false` (leaving the queue unchanged) rather than raising; only
the throwing `put` reports closure as a `queue_closed` error. -/
theorem claim_c5 (α : Type) (q : thread_queue α) (x : α) (d t : Nat) :
    thread_queue.try_put (thread_queue.close q) x =
      (false, thread_queue.close q) ∧
    thread_queue.try_put_for (thread_queue.close q) x d =
      (false, thread_queue.close q) ∧
    thread_queue.try_put_until (thread_queue.close q) x t =
      (false, thread_queue.close q) ∧
    thread_queue.put (thread_queue.close q) x = .queue_closed :=
  ⟨rfl, rfl, rfl, rfl⟩

/-- C6: frame effect of the failing try-gets — when `try_get`,
`try_get_for` or `try_get_until` fails on an empty queue (the only way the
sequential model returns `false`), the caller's output slot and the queue
are left unchanged. -/
theorem claim_c6 (α : Type) (q : thread_queue α) (s : α) (d t : Nat)
    (h : q.que = []) :
    thread_queue.try_get q s = (false, s, q) ∧
    thread_queue.try_get_for q s d = (false, s, q) ∧
    thread_queue.try_get_until q s t = (false, s, q) := by
  obtain ⟨que, cap, cl⟩ := q
  subst h
  exact ⟨rfl, rfl, rfl⟩

/-- C6, witness: the frame theorem at an empty open queue of naturals with
slot value `7`. -/
theorem claim_c6_witness :
    thread_queue.try_get (⟨[], 0, false⟩ : thread_queue Nat) 7 =
      (false, 7, ⟨[], 0, false⟩) ∧
    thread_queue.try_get_for (⟨[], 0, false⟩ : thread_queue Nat) 7 5 =
      (false, 7, ⟨[], 0, false⟩) ∧
    thread_queue.try_get_until (⟨[], 0, false⟩ : thread_queue Nat) 7 5 =
      (false, 7, ⟨[], 0, false⟩) :=
  claim_c6 Nat ⟨[], 0, false⟩ 7 5 5 rfl

/-! ## Claims about the completion token -/

/-- C7: single resolution — for a token resolved by `on_success` with
payload `p`, every subsequent `wait` returns immediately with that same
payload and leaves the result slot unchanged, so repeated reads are
idempotent and never alter the stored result. -/
theorem claim_c7 (α ε : Type) (p : α) :
    token_state.wait (token_state.on_success (.pending : token_state α ε) p) =
      (some (.ok p),
        token_state.on_success (.pending : token_state α ε) p) ∧
    token_state.wait
        (token_state.wait
          (token_state.on_success (.pending : token_state α ε) p)).2 =
      token_state.wait
        (token_state.on_success (.pending : token_state α ε) p) :=
  ⟨rfl, rfl⟩

/-! ## Claims about the event union -/

/-- C8: unwrapping an event as the wrong variant — `get_message` on a
non-message event, or `get_disconnected` on a non-disconnected event —
yields the `bad_variant_access` error, never a silently defaulted value. -/
theorem claim_c8 (M P : Type) :
    (∀ e : event M P, event.is_message e = false →
      event.get_message e = .error .mk) ∧
    (∀ e : event M P, event.is_disconnected e = false →
      event.get_disconnected e = .error .mk) := by
  constructor <;> intro e h <;> cases e <;>
    simp_all [event.is_message, event.is_disconnected, event.get_message,
      event.get_disconnected]

/-- C8, witness: the wrong-variant theorem applied to a connected event
read as a message and a message event read as a disconnect. -/
theorem claim_c8_witness :
    event.get_message (.connected ⟨""⟩ : event Unit Unit) = .error .mk ∧
    event.get_disconnected (.message none : event Unit Unit) = .error .mk :=
  ⟨(claim_c8 Unit Unit).1 (.connected ⟨""⟩) rfl,
    (claim_c8 Unit Unit).2 (.message none) rfl⟩

/-- C10: a default-constructed event reports as a message event —
`is_message` is true, `get_message` returns the null message pointer
without throwing, `get_message_if` returns a non-null pointer to that null
message pointer — so an empty event is literally the message event
carrying a null message. -/
theorem claim_c10 (M P : Type) :
    event.is_message (event.dflt M P) = true ∧
    event.get_message (event.dflt M P) = .ok none ∧
    event.get_message_if (event.dflt M P) = some none ∧
    event.dflt M P = event.message none :=
  ⟨rfl, rfl, rfl, rfl⟩

/-! ## Claims about topic-filter construction -/

/-- The `no_interior_hash` check holds exactly when `#` is not among the non-final
segments. -/
theorem no_interior_hash_iff (l : List String) :
    topic_filter.no_interior_hash l = true ↔ "#" ∉ l.dropLast := by
  induction l with
  | nil =>
    constructor
    · intro _; simp
    · intro _; rfl
  | cons s rest ih =>
    cases rest with
    | nil =>
      constructor
      · intro _; simp
      · intro _; rfl
    | cons t ts =>
      have e1 : topic_filter.no_interior_hash (s :: t :: ts) =
          ((s != "#") && topic_filter.no_interior_hash (t :: ts)) := rfl
      have e2 : (s :: t :: ts).dropLast = s :: (t :: ts).dropLast := rfl
      rw [e1, e2, Bool.and_eq_true, bne_iff_ne, ih, List.mem_cons, not_or]
      constructor
      · rintro ⟨h1, h2⟩
        exact ⟨fun hs => h1 hs.symm, h2⟩
      · rintro ⟨h1, h2⟩
        exact ⟨fun hs => h1 hs.symm, h2⟩

/-- C9: a topic filter whose `#` wildcard is not the final segment fails
with `malformed_filter` at construction time; construction succeeds, with
the split segments, exactly for the well-formed filters, in which `#`
appears only as the last segment. -/
theorem claim_c9 (s : String) :
    (topic_filter.make s = .error .malformed_filter ↔
      "#" ∈ (topic.split s).dropLast) ∧
    (topic_filter.make s = .ok (topic.split s) ↔
      "#" ∉ (topic.split s).dropLast) := by
  have h := no_interior_hash_iff (topic.split s)
  cases hb : topic_filter.no_interior_hash (topic.split s) with
  | false =>
    rw [hb] at h
    simp only [Bool.false_eq_true, false_iff, not_not] at h
    simp [topic_filter.make, hb, h]
  | true =>
    rw [hb] at h
    simp only [true_iff] at h
    simp [topic_filter.make, hb, h]

/-- C9, witness: construction fails on `foo/#/bar` and succeeds on
`foo/#`. -/
theorem claim_c9_witness :
    topic_filter.make "foo/#/bar" = .error .malformed_filter ∧
    topic_filter.make "foo/#" = .ok (topic.split "foo/#") :=
  ⟨(claim_c9 "foo/#/bar").1.mpr (by decide),
    (claim_c9 "foo/#").2.mpr (by decide)⟩

/-! ## Sanity: the full unit-test matching table -/

theorem unit_should_match :
    topic_filter.matches' "foo/bar" "foo/bar" = true ∧
    topic_filter.matches' "foo/+" "foo/bar" = true ∧
    topic_filter.matches' "foo/+/baz" "foo/bar/baz" = true ∧
    topic_filter.matches' "foo/+/#" "foo/bar/baz" = true ∧
    topic_filter.matches' "A/B/+/#" "A/B/B/C" = true ∧
    topic_filter.matches' "#" "foo/bar/baz" = true ∧
    topic_filter.matches' "#" "/foo/bar" = true ∧
    topic_filter.matches' "/#" "/foo/bar" = true ∧
    topic_filter.matches' "$SYS/bar" "$SYS/bar" = true ∧
    topic_filter.matches' "$SYS/#" "$SYS/bar" = true ∧
    topic_filter.matches' "foo/#" "foo/$bar" = true ∧
    topic_filter.matches' "foo/+/baz" "foo/$bar/baz" = true := by
  decide

theorem unit_should_not_match :
    topic_filter.matches' "test/6/#" "test/3" = false ∧
    topic_filter.matches' "foo/bar" "foo" = false ∧
    topic_filter.matches' "foo/+" "foo/bar/baz" = false ∧
    topic_filter.matches' "foo/+/baz" "foo/bar/bar" = false ∧
    topic_filter.matches' "foo/+/#" "fo2/bar/baz" = false ∧
    topic_filter.matches' "/#" "foo/bar" = false ∧
    topic_filter.matches' "#" "$SYS/bar" = false ∧
    topic_filter.matches' "$BOB/bar" "$SYS/bar" = false ∧
    topic_filter.matches' "+/bar" "$SYS/bar" = false := by
  decide

end Mqtt
